import Mathlib

/-
Shallow embedding of the Iridium SBD driver (src/iridium-sbd.js) for the
node-iridium-sbd repository.

Inbound serial data is decoded with buffer.toString with the binary (latin1)
encoding, which maps bytes to characters one-to-one, so lines and buffers are
modelled as List Char.  JS regular expressions used by the driver are embedded
as the concrete decidable predicates they denote on such strings.  JS numbers
reaching arithmetic here are integers well below 2^53, so Nat / Int model them
exactly; the two bitwise operations in sendBinaryMessage (sum and 0xff,
sum right-shift 8) only ever extract bits 0..15 of the byte sum, which the
JS ToInt32 conversion preserves, so they are modelled as % 256 and / 256.

A JS-semantics point that matters below: the driver stores the inflight
command state in the module-level bindings df, er, tf declared with a
let-statement, and in the undeclared global kr.  The statements
delete(df), delete(er), delete tf are no-ops on let-declared bindings in
non-strict mode, so completing a command does NOT clear df or er; only
iridium.buffer is reset.  Before the first AT command df is undefined, and
calling it (the data handler does so whenever er is falsy) throws a TypeError,
modelled by the crashUndefinedDf event.
-/

namespace IridiumSBD

/-! ### Character-list utilities (JS string primitives on latin1 strings) -/

/-- Boolean prefix test: does the second list start with the first
(the anchored part of a JS regex such as /^SBDRING/). -/
def leadsWith : List Char → List Char → Bool
  | [], _ => true
  | _ :: _, [] => false
  | a :: as, b :: bs => a == b && leadsWith as bs

/-- Boolean substring test (an unanchored JS regex literal such as /ERROR/). -/
def containsSeq (needle : List Char) : List Char → Bool
  | [] => leadsWith needle []
  | c :: rest => leadsWith needle (c :: rest) || containsSeq needle rest

/-- Whitespace class of the JS regex escape backslash-s, restricted to the
latin1 characters a modem line can contain (space, tab, LF, VT, FF, CR,
no-break space). -/
def isWsB (c : Char) : Bool :=
  c == ' ' || c == '\t' || c == '\n' || c == '\x0b' || c == '\x0c' ||
  c == '\r' || c == '\xa0'

/-- The JS regex dot: any character except a line terminator; a greedy
dot-star capture therefore takes the longest such prefix. -/
def dotStar (l : List Char) : List Char :=
  l.takeWhile (fun c => !(c == '\n') && !(c == '\r'))

/-! ### Globals (src/iridium-sbd.js lines 40-50) -/

/-- globals.defaultTimeout = 40 * 1000. -/
def defaultTimeout : Int := 40000

/-- globals.simpleTimeout = 2000. -/
def simpleTimeout : Int := 2000

/-- globals.timeoutForever = -1. -/
def timeoutForever : Int := -1

/-- globals.maxAttempts = 5. -/
def maxAttemptsDefault : Nat := 5

/-! ### Line framer: readSBD, text mode (lines 265-282)

In text mode readSBD appends the chunk to iridium.data, splits the result on
LF exactly as the JS String.split does (n delimiters yield n+1 parts,
empty parts included), pops the last part back into iridium.data, and emits
the remaining parts in order. -/

/-- JS String.split on the LF character: always returns at least one part. -/
def splitNL : List Char → List (List Char)
  | [] => [[]]
  | c :: rest =>
    if c = '\n' then [] :: splitNL rest
    else
      match splitNL rest with
      | [] => [[c]]
      | p :: ps => (c :: p) :: ps

/-- One text-mode readSBD step: given the rolling fragment iridium.data and an
incoming chunk, return the emitted complete lines and the new fragment. -/
def readSBDText (data chunk : List Char) : List (List Char) × List Char :=
  let parts := splitNL (data ++ chunk)
  (parts.dropLast, parts.getLastD [])

/-- Run readSBD text mode over a sequence of chunks, collecting all emitted
lines in order and the final retained fragment. -/
def readSBDRun : List Char → List (List Char) → List (List Char) × List Char
  | data, [] => ([], data)
  | data, chunk :: chunks =>
    let r := readSBDText data chunk
    let rest := readSBDRun r.2 chunks
    (r.1 ++ rest.1, rest.2)

/-- Proof-side restatement of one framing pass: (complete lines, trailing
fragment) of a byte string, by structural recursion.  Related to splitNL by
splitNL_eq_frame. -/
def frame : List Char → List (List Char) × List Char
  | [] => ([], [])
  | c :: rest =>
    let r := frame rest
    if c = '\n' then ([] :: r.1, r.2)
    else
      match r.1 with
      | [] => ([], c :: r.2)
      | l :: ls => ((c :: l) :: ls, r.2)

/-! ### Response router and command engine (lines 306-341 and 563-592) -/

/-- Pattern of the unsolicited entry SBDRING: /^SBDRING/. -/
def sbdringPat (line : List Char) : Bool := leadsWith ("SBDRING".toList) line

/-- Pattern of the unsolicited entry AREG: the test part of /^\+AREG/. -/
def aregPat (line : List Char) : Bool := leadsWith ("+AREG".toList) line

/-- The single entry of iridium.errors: /ERROR/. -/
def errorPat (line : List Char) : Bool := containsSeq ("ERROR".toList) line

/-- The OK constant: /^OK\r/. -/
def okPat (line : List Char) : Bool := leadsWith ("OK\r".toList) line

/-- The ALL constant: /.*/ matches every line. -/
def allPat (_ : List Char) : Bool := true

/-- Driver state relevant to the data handler and to AT.
df: whether the module binding df currently holds a function;
er / kr: the end and keep patterns (none models the falsy values undefined
and false); tf: whether a timeout timer is pending; buffer: iridium.buffer;
sends / completions: instrumentation counting serial command writes and
invocations of the stored datafunction. -/
structure EngineState where
  df : Bool
  er : Option (List Char → Bool)
  kr : Option (List Char → Bool)
  tf : Bool
  buffer : List Char
  sends : Nat
  completions : Nat

/-- What the data handler did with one inbound line. -/
inductive RouteEvent where
  /-- er was falsy and df undefined: the handler evaluated df(null, data) on
  an undefined df, a TypeError crash. -/
  | crashUndefinedDf
  /-- er was falsy: the line was passed directly to the stored datafunction. -/
  | rawDeliver (line : List Char)
  /-- An unsolicited pattern matched; its handler ran and processing stopped. -/
  | handledUnsolicited (handler : String)
  /-- An error pattern matched: datafunction called with the so-far body. -/
  | completedError (body : List Char)
  /-- The end pattern matched: datafunction called with the collected body. -/
  | completedOk (body : List Char)
  /-- The line was retained (or dropped by the keep pattern) without
  completing anything. -/
  | silent
deriving DecidableEq

/-- The keep-pattern test: if (!kr || kr.test(data)). -/
def krTest (kr : Option (List Char → Bool)) (line : List Char) : Bool :=
  match kr with
  | none => true
  | some k => k line

/-- The serialPort data handler (lines 306-341), one inbound line.
Completing df clears the pending timer (the df wrapper installed by AT calls
clearTimeout) and bumps the completion counter; delete(df)/delete(er) are
no-ops, so df and er survive.  In the error branch the body is passed before
the current line is appended; in the end branch after. -/
def routeLine (s : EngineState) (line : List Char) : EngineState × RouteEvent :=
  match s.er with
  | none =>
    if s.df then
      ({ s with tf := false, completions := s.completions + 1 },
        RouteEvent.rawDeliver line)
    else (s, RouteEvent.crashUndefinedDf)
  | some er =>
    if sbdringPat line then (s, RouteEvent.handledUnsolicited ("sbdring"))
    else if aregPat line then (s, RouteEvent.handledUnsolicited ("areg"))
    else if errorPat line then
      if s.df then
        ({ s with
            buffer := []
            tf := false
            completions := s.completions + 1 },
          RouteEvent.completedError s.buffer)
      else (s, RouteEvent.crashUndefinedDf)
    else
      let s1 :=
        if krTest s.kr line then { s with buffer := s.buffer ++ line ++ ['\n'] }
        else s
      if er line then
        if s1.df then
          ({ s1 with
              buffer := []
              tf := false
              completions := s1.completions + 1 },
            RouteEvent.completedOk s1.buffer)
        else (s1, RouteEvent.crashUndefinedDf)
      else (s1, RouteEvent.silent)

/-- The timeout normalisation in AT (line 580):
if (!timeout) timeout = iridium.globals.defaultTimeout.  none models an
omitted argument (undefined); a given 0 is falsy and is also replaced. -/
def effectiveTimeout (timeout : Option Int) : Int :=
  match timeout with
  | none => defaultTimeout
  | some t => if t == 0 then defaultTimeout else t

/-- AT (lines 570-592): record er and kr, cancel any previous timer, install
the df wrapper, arm a timer iff the effective timeout is positive, and write
the command to the serial port (counted in sends). -/
def atSend (s : EngineState) (er kr : Option (List Char → Bool))
    (timeout : Option Int) : EngineState :=
  { s with
      er := er
      kr := kr
      df := true
      tf := decide (0 < effectiveTimeout timeout)
      sends := s.sends + 1 }

/-- Expiry of the timer armed by AT (lines 581-583): its callback only logs.
The timer is no longer pending afterwards; df, er, kr, buffer are untouched
and the datafunction is not invoked. -/
def timerFireStep (s : EngineState) : EngineState :=
  if s.tf then { s with tf := false } else s

/-- Events driving the command engine: an AT send, an inbound line, or the
expiry of the pending command timer. -/
inductive ATEvent where
  | send (er kr : Option (List Char → Bool)) (timeout : Option Int)
  | line (l : List Char)
  | timerFire

/-- One engine step. -/
def engineStep (s : EngineState) : ATEvent → EngineState
  | ATEvent.send er kr t => atSend s er kr t
  | ATEvent.line l => (routeLine s l).1
  | ATEvent.timerFire => timerFireStep s

/-- Run the engine over an event sequence. -/
def engineRun (s : EngineState) (events : List ATEvent) : EngineState :=
  events.foldl engineStep s

/-- The driver's initial state: no command ever sent, df/er/kr undefined,
empty buffer. -/
def engineInit : EngineState :=
  { df := false, er := none, kr := none, tf := false, buffer := [],
    sends := 0, completions := 0 }

/-! ### sendBinaryMessage checksum frame (lines 162-180)

For a non-empty message the code allocates ob of length len+2, copies the
payload while accumulating sum, then stores ob[len+1] = sum and 0xff,
shifts sum right by 8 and stores ob[len] = sum and 0xff.  Buffer cells are
bytes 0..255; the bitwise steps are the Nat operations % 256 and / 256 (the
JS ToInt32 conversion inside them preserves bits 0..15 of the sum, the only
bits these two stores read). -/

/-- The accumulated sum of the payload bytes (the loop in lines 174-177). -/
def byteSum (payload : List Nat) : Nat :=
  payload.foldl (fun acc b => acc + b) 0

/-- The low checksum byte stored at index len+1: sum and 0xff. -/
def sbdwbChecksumLo (payload : List Nat) : Nat := byteSum payload % 256

/-- The high checksum byte stored at index len: (sum right-shift 8) and 0xff. -/
def sbdwbChecksumHi (payload : List Nat) : Nat := byteSum payload / 256 % 256

/-- The buffer ob written to the modem after READY: payload, then the high
checksum byte at index len, then the low checksum byte at index len+1. -/
def sbdwbFrame (payload : List Nat) : List Nat :=
  payload ++ [sbdwbChecksumHi payload, sbdwbChecksumLo payload]

/-! ### initiateSession MO disposition (lines 495-529)

The six regex groups of /\+SBDIX: (\d+), (\d+), (\d+), (\d+), (\d+), (\d+)/
are digit strings; the JS comparisons status <= 4, status == 18,
status == 32 coerce them to their numeric values, so the fields are
modelled as Nat. -/

/-- The six fields of a parsed +SBDIX status line. -/
structure SBDIXFields where
  status : Nat
  momsn : Nat
  mtstatus : Nat
  mtmsn : Nat
  mtlen : Nat
  mtqueued : Nat
deriving DecidableEq

/-- Effects of the MO branch of initiateSession on the parsed fields:
the value messagePending is set to, whether clearMOBuffers is issued at this
stage, and the error string the callback receives (none means the MO part
succeeded and control proceeds to the MT disposition). -/
structure MOStep where
  newMessagePending : Nat
  clearsMOBuffers : Bool
  callbackErr : Option String
deriving DecidableEq

/-- The MO disposition switch of initiateSession (lines 505-529). -/
def initiateSessionMO (f : SBDIXFields) : MOStep :=
  if f.status ≤ 4 then { newMessagePending := 0, clearsMOBuffers := false, callbackErr := none }
  else if f.status = 18 then
    { newMessagePending := 1, clearsMOBuffers := true, callbackErr := some ("radio failure") }
  else if f.status = 32 then
    { newMessagePending := 1, clearsMOBuffers := true, callbackErr := some ("network failure") }
  else
    { newMessagePending := 1, clearsMOBuffers := true, callbackErr := some ("unknown failure") }

/-! ### mailboxCheck (lines 124-130) and mailboxSend (lines 132-160) -/

/-- The state mailboxCheck reads and writes: the MO pipeline lock and the
pending counter. -/
structure MailboxState where
  lock : Nat
  pending : Nat
deriving DecidableEq

/-- What a mailboxCheck call did beyond its state change. -/
inductive MailboxStep where
  /-- lock was set: pending was incremented and nothing else happened. -/
  | onlyIncrementPending
  /-- lock was clear: the call invoked sendMessage with the empty string
  (and no callback), i.e. a mailbox check session. -/
  | callSendMessageEmpty
deriving DecidableEq

/-- mailboxCheck (lines 124-130). -/
def mailboxCheck (s : MailboxState) : MailboxState × MailboxStep :=
  if s.lock ≠ 0 then
    ({ s with pending := s.pending + 1 }, MailboxStep.onlyIncrementPending)
  else (s, MailboxStep.callSendMessageEmpty)

/-- Observable summary of a mailboxSend retry chain: how many send attempts
(sendBinaryMessage calls, each driving one SBDIX session) were performed, and
the list of outer-callback invocations (true = the bounded maxAttempts
error object, false = success). -/
structure MailboxSendTrace where
  attempts : Nat
  callbackErrs : List Bool
deriving DecidableEq

/-- mailboxSend (lines 132-160) as a function of the current c_attempt
counter and the schedule of session outcomes (true = the attempt's
sendBinaryMessage callback reports success, false = it reports an error, in
which case a retry is scheduled after 20 s).  An empty schedule with an
attempt still allowed means the attempt was issued but its outcome is still
outstanding, so no callback has fired yet. -/
def mailboxSendRun (maxAttempts : Nat) : Nat → List Bool → MailboxSendTrace
  | c, [] =>
    if c + 1 ≤ maxAttempts then { attempts := 1, callbackErrs := [] }
    else { attempts := 0, callbackErrs := [true] }
  | c, outcome :: rest =>
    if c + 1 ≤ maxAttempts then
      if outcome then { attempts := 1, callbackErrs := [false] }
      else
        let t := mailboxSendRun maxAttempts (c + 1) rest
        { attempts := t.attempts + 1, callbackErrs := t.callbackErrs }
    else { attempts := 0, callbackErrs := [true] }

/-! ### Modem query response parsing (lines 364-414)

getSystemTime, getNetworkTime and getSignalQuality run a result.match
against an unanchored regex; a failed match surfaces a parse-failure error
string through the callback.  The regex searches are embedded below; the
construction of the JS Date object from the matched fields is a runtime
library call and is left as the matched data itself. -/

/-- Decimal digit value of a character, none if it is not a digit
(the regex class backslash-d). -/
def digitVal (c : Char) : Option Nat :=
  if c.isDigit then some (c.toNat - 48) else none

/-- Consume further digits after a first one, greedily, returning the value
accumulated so far and the rest. -/
def digitsAux : List Char → Nat → Nat × List Char
  | [], acc => (acc, [])
  | c :: rest, acc =>
    match digitVal c with
    | some v => digitsAux rest (acc * 10 + v)
    | none => (acc, c :: rest)

/-- A greedy (backslash-d)+ group: at least one digit, maximal run, value and
rest; none if the first character is not a digit. -/
def digits1 : List Char → Option (Nat × List Char)
  | [] => none
  | c :: rest =>
    match digitVal c with
    | some v => some (digitsAux rest v)
    | none => none

/-- Match a literal character. -/
def stripChar (c : Char) : List Char → Option (List Char)
  | [] => none
  | d :: rest => if d = c then some rest else none

/-- Match a literal character sequence. -/
def stripSeq (needle : List Char) (l : List Char) : Option (List Char) :=
  if leadsWith needle l then some (l.drop needle.length) else none

/-- The suffix after the first occurrence of a literal sequence, none if the
sequence does not occur (the search for the literal head of an unanchored
regex). -/
def afterSeq (needle : List Char) : List Char → Option (List Char)
  | [] => if needle.isEmpty then some [] else none
  | c :: rest =>
    if leadsWith needle (c :: rest) then some ((c :: rest).drop needle.length)
    else afterSeq needle rest

/-- The six numeric groups matched by
/CCLK:(\d+)\/(\d+)\/(\d+),(\d+):(\d+):(\d+)/ (year, month, day, hour,
minute, second as printed by the modem). -/
structure CclkFields where
  y : Nat
  mo : Nat
  d : Nat
  h : Nat
  mi : Nat
  s : Nat
deriving DecidableEq

/-- Try the CCLK regex at this exact position. -/
def matchCCLKHere (l : List Char) : Option CclkFields := do
  let r0 ← stripSeq ("CCLK:".toList) l
  let (y, r1) ← digits1 r0
  let r2 ← stripChar '/' r1
  let (mo, r3) ← digits1 r2
  let r4 ← stripChar '/' r3
  let (d, r5) ← digits1 r4
  let r6 ← stripChar ',' r5
  let (h, r7) ← digits1 r6
  let r8 ← stripChar ':' r7
  let (mi, r9) ← digits1 r8
  let r10 ← stripChar ':' r9
  let (s, _) ← digits1 r10
  pure { y := y, mo := mo, d := d, h := h, mi := mi, s := s }

/-- Unanchored search of the CCLK regex: first position where it matches. -/
def cclkSearch : List Char → Option CclkFields
  | [] => none
  | c :: rest =>
    match matchCCLKHere (c :: rest) with
    | some f => some f
    | none => cclkSearch rest

/-- getSystemTime's handling of a completed AT+CCLK? response (lines
365-375): a failed match surfaces UNKNOWN_TIME, a successful one hands the
matched fields to Date.UTC (year 2000+y). -/
def getSystemTime (result : List Char) : Except String CclkFields :=
  match cclkSearch result with
  | none => Except.error ("UNKNOWN_TIME")
  | some f => Except.ok f

/-- The capture of the MSSTM regex (literal -MSSTM: then backslash-s star
then a dot-star group): the text after the literal and greedy whitespace, up
to the end of the line. -/
def msstmSearch (l : List Char) : Option (List Char) :=
  match afterSeq ("-MSSTM:".toList) l with
  | none => none
  | some rest => some (dotStar (rest.dropWhile isWsB))

/-- Hex digit value for parseInt with radix 16. -/
def hexVal (c : Char) : Option Nat :=
  if c.isDigit then some (c.toNat - 48)
  else if 'a' ≤ c ∧ c ≤ 'f' then some (c.toNat - 87)
  else if 'A' ≤ c ∧ c ≤ 'F' then some (c.toNat - 55)
  else none

/-- Accumulate further hex digits greedily. -/
def parseHexAux : List Char → Nat → Nat
  | [], acc => acc
  | c :: rest, acc =>
    match hexVal c with
    | some v => parseHexAux rest (acc * 16 + v)
    | none => acc

/-- The maximal leading hex-digit run as a value; none (NaN) if there is no
leading hex digit. -/
def parseMaxHex : List Char → Option Nat
  | [] => none
  | c :: rest =>
    match hexVal c with
    | some v => some (parseHexAux rest v)
    | none => none

/-- The digit part of parseInt(s, 16): an optional 0x / 0X marker followed by
hex digits. -/
def parseHexBody (l : List Char) : Option Nat :=
  match l with
  | '0' :: 'x' :: rest => parseMaxHex rest
  | '0' :: 'X' :: rest => parseMaxHex rest
  | _ => parseMaxHex l

/-- JS parseInt with radix 16: trim leading whitespace, optional sign,
optional 0x marker, maximal hex run; none is NaN. -/
def parseIntRadix16 (l : List Char) : Option Int :=
  match l.dropWhile isWsB with
  | '-' :: r => (parseHexBody r).map (fun n => -(n : Int))
  | '+' :: r => (parseHexBody r).map (fun n => (n : Int))
  | r => (parseHexBody r).map (fun n => (n : Int))

/-- getNetworkTime's handling of a completed AT-MSSTM response (lines
379-392): a failed match surfaces UNKNOWN_TIME; otherwise the capture is
parsed as hex and the epoch milliseconds 1399818235000 + T * 90 are handed
to Date (none inside ok is the NaN / Invalid Date case). -/
def getNetworkTime (result : List Char) : Except String (Option Int) :=
  match msstmSearch result with
  | none => Except.error ("UNKNOWN_TIME")
  | some cap => Except.ok ((parseIntRadix16 cap).map (fun t => 1399818235000 + t * 90))

/-- The capture of /CSQ:\s*(.*)/. -/
def csqSearch (l : List Char) : Option (List Char) :=
  match afterSeq ("CSQ:".toList) l with
  | none => none
  | some rest => some (dotStar (rest.dropWhile isWsB))

/-- Accumulate further decimal digits greedily. -/
def parseDecAux : List Char → Nat → Nat
  | [], acc => acc
  | c :: rest, acc =>
    match digitVal c with
    | some v => parseDecAux rest (acc * 10 + v)
    | none => acc

/-- The maximal leading decimal-digit run as a value; none is NaN. -/
def parseMaxDec : List Char → Option Nat
  | [] => none
  | c :: rest =>
    match digitVal c with
    | some v => some (parseDecAux rest v)
    | none => none

/-- JS parseInt with no radix argument: trim, optional sign, then hex if an
0x marker is present, else decimal; none is NaN. -/
def parseIntDefault (l : List Char) : Option Int :=
  match l.dropWhile isWsB with
  | '-' :: '0' :: 'x' :: r => (parseMaxHex r).map (fun n => -(n : Int))
  | '-' :: '0' :: 'X' :: r => (parseMaxHex r).map (fun n => -(n : Int))
  | '-' :: r => (parseMaxDec r).map (fun n => -(n : Int))
  | '+' :: '0' :: 'x' :: r => (parseMaxHex r).map (fun n => (n : Int))
  | '+' :: '0' :: 'X' :: r => (parseMaxHex r).map (fun n => (n : Int))
  | '+' :: r => (parseMaxDec r).map (fun n => (n : Int))
  | '0' :: 'x' :: r => (parseMaxHex r).map (fun n => (n : Int))
  | '0' :: 'X' :: r => (parseMaxHex r).map (fun n => (n : Int))
  | r => (parseMaxDec r).map (fun n => (n : Int))

/-- getSignalQuality's handling of a completed AT+CSQ response (lines
404-414): a failed match surfaces UNKNOWN_SIGNAL_QUALITY; otherwise the
capture goes through parseInt (none inside ok is the NaN case). -/
def getSignalQuality (result : List Char) : Except String (Option Int) :=
  match csqSearch result with
  | none => Except.error ("UNKNOWN_SIGNAL_QUALITY")
  | some cap => Except.ok (parseIntDefault cap)

/-! ### Framer lemmas -/

theorem splitNL_ne_nil (s : List Char) : splitNL s ≠ [] := by
  induction s with
  | nil => simp [splitNL]
  | cons c rest ih =>
    simp only [splitNL]
    split
    · simp
    · cases h : splitNL rest with
      | nil => simp
      | cons p ps => simp

theorem frame_frag_no_nl (s : List Char) : '\n' ∉ (frame s).2 := by
  induction s with
  | nil => simp [frame]
  | cons c rest ih =>
    by_cases hc : c = '\n'
    · simpa [frame, hc] using ih
    · cases h1 : (frame rest).1 with
      | nil =>
        simp only [frame, hc, if_false, h1]
        intro hmem
        rcases List.mem_cons.mp hmem with h | h
        · exact hc h.symm
        · exact ih h
      | cons l ls => simpa [frame, hc, h1] using ih

theorem frame_no_nl (s : List Char) (h : '\n' ∉ s) : frame s = ([], s) := by
  induction s with
  | nil => simp [frame]
  | cons c rest ih =>
    have hc : c ≠ '\n' := fun e => h (by simp [e])
    have hrest : '\n' ∉ rest := fun e => h (List.mem_cons_of_mem _ e)
    have hcn : ¬(c = '\n') := hc
    simp [frame, hcn, ih hrest]

theorem frame_append (s t : List Char) :
    frame (s ++ t) =
      ((frame s).1 ++ (frame ((frame s).2 ++ t)).1,
        (frame ((frame s).2 ++ t)).2) := by
  induction s with
  | nil => simp [frame]
  | cons c s ih =>
    by_cases hc : c = '\n'
    · subst hc
      simp [frame, ih]
    · cases h1 : (frame s).1 with
      | nil =>
        have hB := ih
        rw [h1] at hB
        simp only [List.nil_append] at hB
        have hB' : frame (s ++ t) = frame ((frame s).2 ++ t) := by
          rw [hB]
        have e1 : (frame (c :: s)).1 = [] := by simp [frame, hc, h1]
        have e2 : (frame (c :: s)).2 = c :: (frame s).2 := by simp [frame, hc, h1]
        rw [List.cons_append, e1, e2, List.nil_append, List.cons_append]
        have key : frame (c :: (s ++ t)) = frame (c :: ((frame s).2 ++ t)) := by
          simp only [frame]
          rw [hB']
        simpa using key
      | cons l ls =>
        have hB := ih
        rw [h1] at hB
        have e1 : (frame (c :: s)).1 = (c :: l) :: ls := by simp [frame, hc, h1]
        have e2 : (frame (c :: s)).2 = (frame s).2 := by simp [frame, hc, h1]
        rw [List.cons_append, e1, e2]
        simp only [frame]
        rw [if_neg hc, hB]
        simp

theorem splitNL_eq_frame : ∀ s : List Char, splitNL s = (frame s).1 ++ [(frame s).2] := by
    intro s
    induction s with
    | nil => simp [splitNL, frame]
    | cons c rest ih =>
      by_cases hc : c = '\n'
      · simp [splitNL, frame, hc, ih]
      · cases h : splitNL rest with
        | nil => exact absurd h (splitNL_ne_nil rest)
        | cons p ps =>
          cases h1 : (frame rest).1 with
          | nil =>
            have : p :: ps = [(frame rest).2] := by rw [← h, ih, h1]; simp
            simp only [splitNL, hc, if_false, h, frame, h1]
            cases this
            simp
          | cons l ls =>
            have hpq : p :: ps = l :: (ls ++ [(frame rest).2]) := by
              rw [← h, ih, h1]; simp
            simp only [splitNL, hc, if_false, h, frame, h1]
            cases hpq
            simp

theorem readSBDText_eq_frame (d chunk : List Char) :
    readSBDText d chunk = frame (d ++ chunk) := by
  unfold readSBDText
  rw [splitNL_eq_frame]
  simp only []
  rw [List.dropLast_concat, List.getLastD_concat]

theorem readSBDRun_eq_frame (cs : List (List Char)) (d : List Char)
    (h : '\n' ∉ d) : readSBDRun d cs = frame (d ++ cs.flatten) := by
  induction cs generalizing d with
  | nil => simp [readSBDRun, frame_no_nl d h]
  | cons chunk cs ih =>
    simp only [readSBDRun, readSBDText_eq_frame, List.flatten_cons]
    rw [ih (frame (d ++ chunk)).2 (frame_frag_no_nl _), ← List.append_assoc,
      frame_append (d ++ chunk) cs.flatten]

/-! ### mailboxSend lemmas -/

theorem mailboxSendRun_attempts_le (maxAttempts : Nat) :
    ∀ (outcomes : List Bool) (c : Nat),
      (mailboxSendRun maxAttempts c outcomes).attempts ≤ maxAttempts - c := by
  intro outcomes
  induction outcomes with
  | nil =>
    intro c
    by_cases h : c + 1 ≤ maxAttempts <;> simp [mailboxSendRun, h] <;> omega
  | cons o rest ih =>
    intro c
    by_cases h : c + 1 ≤ maxAttempts
    · cases o
      · have := ih (c + 1)
        simp only [mailboxSendRun, h, if_true, Bool.false_eq_true, if_false]
        omega
      · simp only [mailboxSendRun, h, if_true]
        omega
    · simp [mailboxSendRun, h]

theorem mailboxSendRun_callbacks_le (maxAttempts : Nat) :
    ∀ (outcomes : List Bool) (c : Nat),
      (mailboxSendRun maxAttempts c outcomes).callbackErrs.length ≤ 1 := by
  intro outcomes
  induction outcomes with
  | nil =>
    intro c
    by_cases h : c + 1 ≤ maxAttempts <;> simp [mailboxSendRun, h]
  | cons o rest ih =>
    intro c
    by_cases h : c + 1 ≤ maxAttempts
    · cases o
      · have := ih (c + 1)
        simp only [mailboxSendRun, h, if_true, Bool.false_eq_true, if_false]
        omega
      · simp [mailboxSendRun, h]
    · simp [mailboxSendRun, h]

theorem mailboxSendRun_exceed (maxAttempts : Nat) :
    ∀ (outcomes : List Bool) (c : Nat), (∀ o ∈ outcomes, o = false) →
      maxAttempts ≤ c + outcomes.length →
      mailboxSendRun maxAttempts c outcomes =
        { attempts := maxAttempts - c, callbackErrs := [true] } := by
  intro outcomes
  induction outcomes with
  | nil =>
    intro c _ hlen
    have h : ¬(c + 1 ≤ maxAttempts) := by simp at hlen; omega
    simp only [mailboxSendRun, h, if_false]
    have : maxAttempts - c = 0 := by omega
    rw [this]
  | cons o rest ih =>
    intro c hall hlen
    have ho : o = false := hall o (List.mem_cons_self o rest)
    subst ho
    by_cases h : c + 1 ≤ maxAttempts
    · have hr := ih (c + 1) (fun x hx => hall x (List.mem_cons_of_mem _ hx))
        (by simp at hlen ⊢; omega)
      simp only [mailboxSendRun, h, if_true, Bool.false_eq_true, if_false, hr]
      have : maxAttempts - (c + 1) + 1 = maxAttempts - c := by omega
      simp [this]
    · simp only [mailboxSendRun, h, if_false]
      have : maxAttempts - c = 0 := by omega
      rw [this]

/-! ### Claim theorems -/

/-- C1: the claim says that when the per-command timeout armed by AT expires,
the inflight slot is cleared and the continuation is invoked with a timeout
error, keeping completion invocations 1:1 with send calls.  The code instead
arms a timer whose callback only logs: after sending one command with a
positive timeout and letting the timer fire, the send counter is 1 but the
datafunction has been invoked 0 times and the slot still holds the command
(df remains set), so the 1:1 property fails whenever the modem stays
silent. -/
theorem timeout_fire_does_not_complete :
    (engineRun engineInit
      [ATEvent.send (some okPat) (some allPat) (some 2000)]).tf = true ∧
    (engineRun engineInit
      [ATEvent.send (some okPat) (some allPat) (some 2000),
        ATEvent.timerFire]).sends = 1 ∧
    (engineRun engineInit
      [ATEvent.send (some okPat) (some allPat) (some 2000),
        ATEvent.timerFire]).completions = 0 ∧
    (engineRun engineInit
      [ATEvent.send (some okPat) (some allPat) (some 2000),
        ATEvent.timerFire]).df = true :=
  ⟨rfl, rfl, rfl, rfl⟩

/-- C2: for every parsed +SBDIX status line, initiateSession disposes of the
MO message by status: status at most 4 succeeds and clears messagePending;
status 18 clears the MO buffers and surfaces radio failure; status 32 clears
the MO buffers and surfaces network failure; any other status clears the MO
buffers and surfaces unknown failure. -/
theorem initiateSessionMO_disposition (f : SBDIXFields) :
    (f.status ≤ 4 → initiateSessionMO f =
      { newMessagePending := 0, clearsMOBuffers := false, callbackErr := none }) ∧
    (f.status = 18 → initiateSessionMO f =
      { newMessagePending := 1, clearsMOBuffers := true,
        callbackErr := some ("radio failure") }) ∧
    (f.status = 32 → initiateSessionMO f =
      { newMessagePending := 1, clearsMOBuffers := true,
        callbackErr := some ("network failure") }) ∧
    (4 < f.status → f.status ≠ 18 → f.status ≠ 32 → initiateSessionMO f =
      { newMessagePending := 1, clearsMOBuffers := true,
        callbackErr := some ("unknown failure") }) := by
  refine ⟨fun h => ?_, fun h => ?_, fun h => ?_, fun h h18 h32 => ?_⟩
  · simp [initiateSessionMO, h]
  · simp [initiateSessionMO, h]
  · simp [initiateSessionMO, h]
  · unfold initiateSessionMO
    rw [if_neg (by omega), if_neg h18, if_neg h32]

/-- Witness for C2 at the four concrete statuses 3, 18, 32 and 13. -/
theorem initiateSessionMO_disposition_witness :
    initiateSessionMO { status := 3, momsn := 42, mtstatus := 0, mtmsn := 0, mtlen := 0, mtqueued := 0 } =
      { newMessagePending := 0, clearsMOBuffers := false, callbackErr := none } ∧
    initiateSessionMO { status := 18, momsn := 0, mtstatus := 0, mtmsn := 0, mtlen := 0, mtqueued := 0 } =
      { newMessagePending := 1, clearsMOBuffers := true, callbackErr := some ("radio failure") } ∧
    initiateSessionMO { status := 32, momsn := 0, mtstatus := 0, mtmsn := 0, mtlen := 0, mtqueued := 0 } =
      { newMessagePending := 1, clearsMOBuffers := true, callbackErr := some ("network failure") } ∧
    initiateSessionMO { status := 13, momsn := 0, mtstatus := 0, mtmsn := 0, mtlen := 0, mtqueued := 0 } =
      { newMessagePending := 1, clearsMOBuffers := true, callbackErr := some ("unknown failure") } :=
  ⟨(initiateSessionMO_disposition _).1 (by decide),
    (initiateSessionMO_disposition _).2.1 rfl,
    (initiateSessionMO_disposition _).2.2.1 rfl,
    (initiateSessionMO_disposition _).2.2.2 (by decide) (by decide) (by decide)⟩

/-- C3: for every non-empty payload, the buffer sendBinaryMessage writes after
READY is the payload followed by two bytes encoding the byte sum modulo 2^16
in big-endian order: the high byte sits at index len, the low byte at index
len+1, and both are bytes. -/
theorem sbdwbFrame_checksum (payload : List Nat) (h : payload ≠ []) :
    sbdwbFrame payload =
      payload ++ [byteSum payload % 65536 / 256, byteSum payload % 65536 % 256] ∧
    byteSum payload % 65536 / 256 < 256 ∧ byteSum payload % 65536 % 256 < 256 := by
  refine ⟨?_, by omega, by omega⟩
  have e1 : byteSum payload / 256 % 256 = byteSum payload % 65536 / 256 := by
    have := Nat.mod_mul_right_div_self (byteSum payload) 256 256
    norm_num at this
    omega
  have e2 : byteSum payload % 256 = byteSum payload % 65536 % 256 :=
    (Nat.mod_mod_of_dvd _ (by norm_num)).symm
  simp only [sbdwbFrame, sbdwbChecksumHi, sbdwbChecksumLo, e1, e2]

/-- Witness for C3 at payload [1, 2, 3]: checksum bytes 0 and 6 appended. -/
theorem sbdwbFrame_checksum_witness :
    sbdwbFrame [1, 2, 3] =
      [1, 2, 3] ++ [byteSum [1, 2, 3] % 65536 / 256, byteSum [1, 2, 3] % 65536 % 256] :=
  (sbdwbFrame_checksum [1, 2, 3] (by decide)).1

/-- C4 counterexample: the claim as stated covers every inflight command,
but a command issued with a falsy end pattern (as AT+SBDRB is, with
endregexp false) makes the data handler deliver any arriving data, an
SBDRING line included, straight to the stored datafunction: the inflight
command is completed by the unsolicited line (completions rises to 1) and
the sbdring handler never runs. -/
theorem unsolicited_rawDeliver_counterexample :
    routeLine { engineInit with df := true } ("SBDRING".toList) =
      ({ engineInit with df := true, completions := 1 },
        RouteEvent.rawDeliver ("SBDRING".toList)) :=
  rfl

/-- C4 amended: for every inbound line processed while a command with an end
pattern is inflight, the unsolicited patterns are evaluated before the
error-pattern and end-pattern checks, and a line matching an unsolicited
pattern is handled by its handler only: the state (body buffer included) is
unchanged and the inflight command is not completed. -/
theorem unsolicited_before_terminator (s : EngineState)
    (p : List Char → Bool) (line : List Char)
    (hdf : s.df = true) (her : s.er = some p)
    (hu : sbdringPat line = true ∨ aregPat line = true) :
    (routeLine s line).1 = s ∧
    ((routeLine s line).2 = RouteEvent.handledUnsolicited ("sbdring") ∨
      (routeLine s line).2 = RouteEvent.handledUnsolicited ("areg")) := by
  cases hsb : sbdringPat line
  · have ha : aregPat line = true := by
      rcases hu with h | h
      · rw [h] at hsb; cases hsb
      · exact h
    simp [routeLine, her, hsb, ha]
  · simp [routeLine, her, hsb]

/-- Witness for C4 on a line that simultaneously matches the SBDRING
unsolicited pattern, the ERROR pattern and the inflight end pattern (taken
as match-all): it is still handled as unsolicited with the state intact. -/
theorem unsolicited_before_terminator_witness :
    (routeLine
      { engineInit with df := true, er := some allPat, kr := some allPat }
      ("SBDRINGERROR".toList)).1 =
      { engineInit with df := true, er := some allPat, kr := some allPat } ∧
    ((routeLine
      { engineInit with df := true, er := some allPat, kr := some allPat }
      ("SBDRINGERROR".toList)).2 = RouteEvent.handledUnsolicited ("sbdring") ∨
      (routeLine
        { engineInit with df := true, er := some allPat, kr := some allPat }
        ("SBDRINGERROR".toList)).2 = RouteEvent.handledUnsolicited ("areg")) :=
  unsolicited_before_terminator _ allPat _ rfl rfl (Or.inl (by decide))

/-- C5: over every mailboxSend retry chain started with the attempt counter
at 0, at most maxAttempts send attempts are performed, the outer callback
fires at most once, and when enough consecutive failures exhaust the
allowance the chain performs exactly maxAttempts attempts, suppresses the
next scheduled attempt and invokes the callback exactly once with the
bounded error. -/
theorem mailboxSend_bounded (maxAttempts : Nat) (outcomes : List Bool) :
    (mailboxSendRun maxAttempts 0 outcomes).attempts ≤ maxAttempts ∧
    (mailboxSendRun maxAttempts 0 outcomes).callbackErrs.length ≤ 1 ∧
    ((∀ o ∈ outcomes, o = false) → maxAttempts ≤ outcomes.length →
      mailboxSendRun maxAttempts 0 outcomes =
        { attempts := maxAttempts, callbackErrs := [true] }) := by
  refine ⟨?_, mailboxSendRun_callbacks_le maxAttempts outcomes 0,
    fun hall hlen => ?_⟩
  · simpa using mailboxSendRun_attempts_le maxAttempts outcomes 0
  · simpa using mailboxSendRun_exceed maxAttempts outcomes 0 hall (by omega)

/-- Witness for C5 with maxAttempts 2 and three scheduled failures: exactly
2 attempts and one bounded-error callback. -/
theorem mailboxSend_bounded_witness :
    (mailboxSendRun 2 0 [false, false, false]).attempts ≤ 2 ∧
    (mailboxSendRun 2 0 [false, false, false]).callbackErrs.length ≤ 1 ∧
    mailboxSendRun 2 0 [false, false, false] =
      { attempts := 2, callbackErrs := [true] } :=
  ⟨(mailboxSend_bounded 2 [false, false, false]).1,
    (mailboxSend_bounded 2 [false, false, false]).2.1,
    (mailboxSend_bounded 2 [false, false, false]).2.2 (by decide) (by decide)⟩

/-- C6: in text mode the lines readSBD emits depend only on the
concatenation of the inbound chunks: any two chunkings of the same byte
stream produce the same emitted lines in the same order. -/
theorem readSBD_chunking_invariant (cs1 cs2 : List (List Char))
    (h : cs1.flatten = cs2.flatten) :
    (readSBDRun [] cs1).1 = (readSBDRun [] cs2).1 := by
  rw [readSBDRun_eq_frame cs1 [] (by simp), readSBDRun_eq_frame cs2 [] (by simp), h]

/-- Witness for C6: one stream chunked two different ways emits the same
lines. -/
theorem readSBD_chunking_invariant_witness :
    List.flatten [("AT\r\nOK".toList), ("\r\nfrag".toList)] =
      List.flatten [("AT\r".toList), ("\nOK\r\n".toList), ("frag".toList)] ∧
    (readSBDRun [] [("AT\r\nOK".toList), ("\r\nfrag".toList)]).1 =
      (readSBDRun [] [("AT\r".toList), ("\nOK\r\n".toList), ("frag".toList)]).1 :=
  ⟨by decide, readSBD_chunking_invariant _ _ (by decide)⟩

/-- C7 counterexample: the claim says a timeout value of 0 (as any
non-positive value) disables the timer, but AT treats 0 as falsy, replaces
it with defaultTimeout and arms the timer. -/
theorem timeout_zero_arms_timer :
    (atSend engineInit (some okPat) (some allPat) (some 0)).tf = true ∧
    effectiveTimeout (some 0) = defaultTimeout :=
  ⟨rfl, rfl⟩

/-- C7 amended: the timeoutForever sentinel -1, and any negative timeout
value, arms no timer; a timeout of 0 (or an omitted timeout) instead falls
back to defaultTimeout and does arm one. -/
theorem negative_timeout_disables_timer :
    (∀ (s : EngineState) (er kr : Option (List Char → Bool)) (t : Int),
      t < 0 → (atSend s er kr (some t)).tf = false) ∧
    (∀ (s : EngineState) (er kr : Option (List Char → Bool)),
      (atSend s er kr (some timeoutForever)).tf = false) ∧
    (∀ (s : EngineState) (er kr : Option (List Char → Bool)),
      (atSend s er kr (some 0)).tf = true ∧ (atSend s er kr none).tf = true) := by
  refine ⟨fun s er kr t ht => ?_, fun s er kr => ?_, fun s er kr => ⟨rfl, rfl⟩⟩
  · have h0 : (t == 0) = false := by
      have : t ≠ 0 := by omega
      simpa using this
    simp only [atSend, effectiveTimeout, h0, Bool.false_eq_true, if_false,
      decide_eq_false_iff_not]
    omega
  · simp [atSend, effectiveTimeout, timeoutForever]

/-- Witness for C7 at the concrete timeouts -5 and -1. -/
theorem negative_timeout_disables_timer_witness :
    (atSend engineInit (some okPat) (some allPat) (some (-5))).tf = false ∧
    (atSend engineInit (some okPat) (some allPat) (some timeoutForever)).tf = false :=
  ⟨negative_timeout_disables_timer.1 engineInit (some okPat) (some allPat) (-5) (by decide),
    negative_timeout_disables_timer.2.1 engineInit (some okPat) (some allPat)⟩

/-- C8: the claim says a line arriving while no command is inflight invokes
its unsolicited handler when one matches and is otherwise logged and
discarded without a crash.  In the code's only genuinely idle state (before
any AT command, df and er both unset) the data handler takes the falsy-er
branch first and invokes the undefined df on every line, a TypeError crash:
the SBDRING line never reaches the unsolicited table and a plain line is not
discarded quietly. -/
theorem idle_line_crashes :
    routeLine engineInit ("SBDRING".toList) =
      (engineInit, RouteEvent.crashUndefinedDf) ∧
    routeLine engineInit ("+CIEV:0,1".toList) =
      (engineInit, RouteEvent.crashUndefinedDf) :=
  ⟨rfl, rfl⟩

/-- C9 counterexample: on a response matching neither query's regex,
getSystemTime and getNetworkTime report the same parse-failure error kind
UNKNOWN_TIME, so the three modem queries do not report pairwise distinct
parse-failure kinds. -/
theorem parse_error_kinds_counterexample :
    getSystemTime ("OK".toList) = Except.error ("UNKNOWN_TIME") ∧
    getNetworkTime ("OK".toList) = Except.error ("UNKNOWN_TIME") :=
  ⟨rfl, rfl⟩

/-- C9 amended: getSignalQuality reports a parse-failure kind
(UNKNOWN_SIGNAL_QUALITY) distinct from the other two queries' kind, but
getSystemTime and getNetworkTime share the single kind UNKNOWN_TIME. -/
theorem parse_error_kinds_amended (l : List Char) :
    (cclkSearch l = none → getSystemTime l = Except.error ("UNKNOWN_TIME")) ∧
    (msstmSearch l = none → getNetworkTime l = Except.error ("UNKNOWN_TIME")) ∧
    (csqSearch l = none →
      getSignalQuality l = Except.error ("UNKNOWN_SIGNAL_QUALITY")) ∧
    ("UNKNOWN_SIGNAL_QUALITY" : String) ≠ ("UNKNOWN_TIME") := by
  refine ⟨fun h => ?_, fun h => ?_, fun h => ?_, by decide⟩
  · simp [getSystemTime, h]
  · simp [getNetworkTime, h]
  · simp [getSignalQuality, h]

/-- Witness for C9 at the concrete non-matching response OK. -/
theorem parse_error_kinds_amended_witness :
    getSystemTime ("OK\r".toList) = Except.error ("UNKNOWN_TIME") ∧
    getNetworkTime ("OK\r".toList) = Except.error ("UNKNOWN_TIME") ∧
    getSignalQuality ("OK\r".toList) = Except.error ("UNKNOWN_SIGNAL_QUALITY") ∧
    ("UNKNOWN_SIGNAL_QUALITY" : String) ≠ ("UNKNOWN_TIME") :=
  ⟨(parse_error_kinds_amended ("OK\r".toList)).1 rfl,
    (parse_error_kinds_amended ("OK\r".toList)).2.1 rfl,
    (parse_error_kinds_amended ("OK\r".toList)).2.2.1 rfl,
    (parse_error_kinds_amended ("OK\r".toList)).2.2.2⟩

/-- C10: while the MO pipeline lock is set, mailboxCheck only increments the
pending counter, issuing no command; with the lock clear it does exactly
what a sendMessage call with the empty string does. -/
theorem mailboxCheck_locked_frame (s : MailboxState) :
    (s.lock ≠ 0 → mailboxCheck s =
      ({ lock := s.lock, pending := s.pending + 1 },
        MailboxStep.onlyIncrementPending)) ∧
    (s.lock = 0 → mailboxCheck s = (s, MailboxStep.callSendMessageEmpty)) := by
  constructor
  · intro h
    simp [mailboxCheck, h]
  · intro h
    simp [mailboxCheck, h]

/-- Witness for C10 at a locked and an unlocked state. -/
theorem mailboxCheck_locked_frame_witness :
    mailboxCheck { lock := 1, pending := 2 } =
      ({ lock := 1, pending := 3 }, MailboxStep.onlyIncrementPending) ∧
    mailboxCheck { lock := 0, pending := 2 } =
      ({ lock := 0, pending := 2 }, MailboxStep.callSendMessageEmpty) :=
  ⟨(mailboxCheck_locked_frame _).1 (by decide),
    (mailboxCheck_locked_frame _).2 rfl⟩

end IridiumSBD
